import Mathlib

/-!
Verification of the single-table DynamoDB store of the no-excel-pm repository.

The definitions below are a shallow embedding of the TypeScript source:
* `packages/shared/types.ts` — entity shapes and key builders;
* the DynamoDB data-access module (`getTask`, `createTask`, `updateTask`,
  `deleteTask`, `addActivity`, `getUsers`, `getUserByEmail`, `createUser`,
  `updateUser`, `getTicket`, `updateTicket`);
* `packages/backend/src/handlers/tasks.ts` — the link/unlink handlers.

The DynamoDB table is modelled as an association list of items keyed by
(PK, SK); `PutCommand` overwrites the item at its key, `DeleteCommand`
removes it unconditionally, `GetCommand` is a point lookup, and the GSI1
query is a filter on the `GSI1PK` attribute.  Calls to `Date.now()` and
`Math.random()` in the source are modelled as explicit parameters
(`epochMillis`, `rand`, `now`).  JavaScript `x || d` on strings (falsy on
the empty string) is modelled by `jsOr`; `undefined` checks on optional
fields are modelled with `Option`.
-/

namespace Paroview

structure ActivityMetadata where
  oldValue : Option String
  newValue : Option String
  fieldName : Option String
deriving DecidableEq, Repr

structure Activity where
  id : String
  type : String
  text : String
  author : String
  timestamp : String
  metadata : Option ActivityMetadata
deriving DecidableEq, Repr

structure Task where
  id : String
  title : String
  description : String
  status : String
  activities : List Activity
  hoursSpent : Nat
  hoursExpected : Nat
  assignedTo : String
  linkedTasks : List String
  dueDate : Option String
  startDate : Option String
  domain : String
  createdAt : String
  updatedAt : String
  createdBy : String
deriving DecidableEq, Repr

/-- Stored tickets may predate the `type` field, hence `Option`;
`normalizeTicket` defaults it on read. -/
structure Ticket where
  id : String
  title : String
  description : String
  status : String
  type : Option String
  assignedTo : Option String
  domain : String
  createdAt : String
  updatedAt : String
  createdBy : String
deriving DecidableEq, Repr

structure UserProfile where
  userId : String
  email : String
  name : String
  domain : String
  role : String
  createdAt : String
  updatedAt : String
deriving DecidableEq, Repr

inductive EntityData where
  | task (t : Task)
  | ticket (t : Ticket)
  | user (u : UserProfile)
deriving DecidableEq, Repr

structure DBItem where
  PK : String
  SK : String
  GSI1PK : String
  GSI1SK : String
  entityType : String
  domain : String
  data : EntityData
  createdAt : String
  updatedAt : String
deriving DecidableEq, Repr

abbrev Table := List DBItem

/-- `buildTaskPK` from shared/types.ts. -/
def buildTaskPK (domain taskId : String) : String :=
  "DOMAIN#" ++ domain ++ "#TASK#" ++ taskId

/-- `buildTicketPK` from shared/types.ts. -/
def buildTicketPK (domain ticketId : String) : String :=
  "DOMAIN#" ++ domain ++ "#TICKET#" ++ ticketId

/-- `buildUserPK` from shared/types.ts. -/
def buildUserPK (domain userId : String) : String :=
  "DOMAIN#" ++ domain ++ "#USER#" ++ userId

/-- `buildMetaSK` from shared/types.ts. -/
def buildMetaSK : String := "META"

/-- `buildDomainGSI1PK` from shared/types.ts. -/
def buildDomainGSI1PK (domain entityType : String) : String :=
  "DOMAIN#" ++ domain ++ "#TYPE#" ++ entityType

/-- Point lookup by (PK, SK): model of `GetCommand`. -/
def findItem (tbl : Table) (pk sk : String) : Option DBItem :=
  tbl.find? (fun r => r.PK == pk && r.SK == sk)

/-- Remove the item stored at (PK, SK), if any: model of `DeleteCommand`. -/
def eraseItem (tbl : Table) (pk sk : String) : Table :=
  tbl.filter (fun r => !(r.PK == pk && r.SK == sk))

/-- Store an item at its (PK, SK), overwriting: model of `PutCommand`. -/
def putItem (tbl : Table) (it : DBItem) : Table :=
  it :: eraseItem tbl it.PK it.SK

/-- All items with the given GSI1PK: model of the GSI1 `QueryCommand`. -/
def queryGSI1 (tbl : Table) (gpk : String) : List DBItem :=
  tbl.filter (fun r => r.GSI1PK == gpk)

def EntityData.asTask : EntityData → Option Task
  | .task t => some t
  | _ => none

def EntityData.asTicket : EntityData → Option Ticket
  | .ticket t => some t
  | _ => none

def EntityData.asUser : EntityData → Option UserProfile
  | .user u => some u
  | _ => none

/-- JavaScript `x || dflt` for an optional string field: both a missing
field and the empty string fall back to the default. -/
def jsOr (v : Option String) (dflt : String) : String :=
  match v with
  | some s => if s = "" then dflt else s
  | none => dflt

/-- JavaScript `String.prototype.toLowerCase()`: lower-case each character. -/
def jsToLower (s : String) : String := String.mk (s.data.map Char.toLower)

/-- `Partial<Task>` — every field optional; a field absent from the patch
leaves the stored value in place under the shallow merge of `updateTask`. -/
structure TaskPatch where
  id : Option String
  title : Option String
  description : Option String
  status : Option String
  activities : Option (List Activity)
  hoursSpent : Option Nat
  hoursExpected : Option Nat
  assignedTo : Option String
  linkedTasks : Option (List String)
  dueDate : Option String
  startDate : Option String
  domain : Option String
  createdAt : Option String
  updatedAt : Option String
  createdBy : Option String
deriving DecidableEq, Repr

def emptyTaskPatch : TaskPatch :=
  ⟨none, none, none, none, none, none, none, none, none, none, none, none,
   none, none, none⟩

/-- The generated task id `task-${Date.now()}-${Math.random()...}`. -/
def taskIdOf (epochMillis : Nat) (rand : String) : String :=
  "task-" ++ toString epochMillis ++ "-" ++ rand

/-- The envelope item written for a task (`PutCommand` payload). -/
def mkTaskItem (domain : String) (task : Task) (gsi1sk createdAt updatedAt : String) :
    DBItem :=
  { PK := buildTaskPK domain task.id
    SK := buildMetaSK
    GSI1PK := buildDomainGSI1PK domain "TASK"
    GSI1SK := gsi1sk
    entityType := "TASK"
    domain := domain
    data := .task task
    createdAt := createdAt
    updatedAt := updatedAt }

/-- `getTask` from the store: point lookup, `null` when absent. -/
def getTask (tbl : Table) (domain taskId : String) : Option Task :=
  (findItem tbl (buildTaskPK domain taskId) buildMetaSK).bind (fun it => it.data.asTask)

/-- The `Task` object literal built by `createTask` (lines 114–136 of the
store source): field defaults via `||`, one seeded "created" activity. -/
def mkFreshTask (domain : String) (taskData : TaskPatch) (createdBy : String)
    (epochMillis : Nat) (rand : String) (now : String) : Task :=
  { id := taskIdOf epochMillis rand
    title := jsOr taskData.title ""
    description := jsOr taskData.description ""
    status := jsOr taskData.status "backlog"
    activities := [{ id := taskIdOf epochMillis rand ++ "-created"
                     type := "created"
                     text := "Task created"
                     author := createdBy
                     timestamp := now
                     metadata := none }]
    hoursSpent := taskData.hoursSpent.getD 0
    hoursExpected := taskData.hoursExpected.getD 0
    assignedTo := jsOr taskData.assignedTo ""
    linkedTasks := taskData.linkedTasks.getD []
    dueDate := none
    startDate := none
    domain := domain
    createdAt := now
    updatedAt := now
    createdBy := createdBy }

/-- `createTask`: build the fresh task and put its item. -/
def createTask (tbl : Table) (domain : String) (taskData : TaskPatch)
    (createdBy : String) (epochMillis : Nat) (rand : String) (now : String) :
    Task × Table :=
  (mkFreshTask domain taskData createdBy epochMillis rand now,
   putItem tbl (mkTaskItem domain (mkFreshTask domain taskData createdBy epochMillis rand now) now now now))

/-- The activity-diff block of `updateTask` (lines 218–293): one activity per
changed field among status, assignedTo, hoursSpent, hoursExpected, comparing
the patch against the stored previous value. -/
def diffActivities (taskId : String) (existingTask : Task) (updates : TaskPatch)
    (updatedBy : String) (nowMillis : Nat) (now : String) : List Activity :=
  (match updates.status with
   | some s =>
     if s ≠ "" ∧ s ≠ existingTask.status then
       [{ id := taskId ++ "-" ++ toString nowMillis ++ "-status"
          type := "status_change"
          text := "Status changed from " ++ existingTask.status ++ " to " ++ s
          author := updatedBy
          timestamp := now
          metadata := some { oldValue := some existingTask.status
                             newValue := some s
                             fieldName := some "status" } }]
     else []
   | none => []) ++
  (match updates.assignedTo with
   | some a =>
     if a ≠ existingTask.assignedTo then
       [{ id := taskId ++ "-" ++ toString nowMillis ++ "-assignment"
          type := "assignment"
          text := "Assigned to " ++ (if a = "" then "Unassigned" else a)
          author := updatedBy
          timestamp := now
          metadata := some { oldValue := some (if existingTask.assignedTo = "" then "Unassigned" else existingTask.assignedTo)
                             newValue := some (if a = "" then "Unassigned" else a)
                             fieldName := some "assignedTo" } }]
     else []
   | none => []) ++
  (match updates.hoursSpent with
   | some h =>
     if h ≠ existingTask.hoursSpent then
       [{ id := taskId ++ "-" ++ toString nowMillis ++ "-hours-spent"
          type := "hours_update"
          text := "Hours spent updated from " ++ toString existingTask.hoursSpent ++ " to " ++ toString h
          author := updatedBy
          timestamp := now
          metadata := some { oldValue := some (toString existingTask.hoursSpent)
                             newValue := some (toString h)
                             fieldName := some "hoursSpent" } }]
     else []
   | none => []) ++
  (match updates.hoursExpected with
   | some h =>
     if h ≠ existingTask.hoursExpected then
       [{ id := taskId ++ "-" ++ toString nowMillis ++ "-hours-expected"
          type := "hours_update"
          text := "Expected hours updated from " ++ toString existingTask.hoursExpected ++ " to " ++ toString h
          author := updatedBy
          timestamp := now
          metadata := some { oldValue := some (toString existingTask.hoursExpected)
                             newValue := some (toString h)
                             fieldName := some "hoursExpected" } }]
     else []
   | none => [])

/-- The merged task written by `updateTask` (lines 295–302): shallow merge of
the patch over the stored task, with `id` and `domain` re-pinned, `activities`
set to the stored list plus the diff, and `updatedAt` refreshed. -/
def applyUpdate (domain taskId : String) (existingTask : Task) (updates : TaskPatch)
    (updatedBy : String) (nowMillis : Nat) (now : String) : Task :=
  { id := taskId
    title := updates.title.getD existingTask.title
    description := updates.description.getD existingTask.description
    status := updates.status.getD existingTask.status
    activities := existingTask.activities ++ diffActivities taskId existingTask updates updatedBy nowMillis now
    hoursSpent := updates.hoursSpent.getD existingTask.hoursSpent
    hoursExpected := updates.hoursExpected.getD existingTask.hoursExpected
    assignedTo := updates.assignedTo.getD existingTask.assignedTo
    linkedTasks := updates.linkedTasks.getD existingTask.linkedTasks
    dueDate := updates.dueDate.or existingTask.dueDate
    startDate := updates.startDate.or existingTask.startDate
    domain := domain
    createdAt := updates.createdAt.getD existingTask.createdAt
    updatedAt := now
    createdBy := updates.createdBy.getD existingTask.createdBy }

/-- `updateTask`: read, fail "Task not found" when absent, merge, put. -/
def updateTask (tbl : Table) (domain taskId : String) (updates : TaskPatch)
    (updatedBy : String) (nowMillis : Nat) (now : String) :
    Except String Task × Table :=
  match getTask tbl domain taskId with
  | none => (.error "Task not found", tbl)
  | some existingTask =>
    (.ok (applyUpdate domain taskId existingTask updates updatedBy nowMillis now),
     putItem tbl (mkTaskItem domain
       (applyUpdate domain taskId existingTask updates updatedBy nowMillis now)
       existingTask.createdAt existingTask.createdAt now))

/-- `deleteTask`: unconditional delete, no existence check, never fails. -/
def deleteTask (tbl : Table) (domain taskId : String) :
    Except String Unit × Table :=
  (.ok (), eraseItem tbl (buildTaskPK domain taskId) buildMetaSK)

/-- `Omit<Activity, 'id' | 'timestamp'>`. -/
structure ActivityInput where
  type : String
  text : String
  author : String
  metadata : Option ActivityMetadata
deriving DecidableEq, Repr

/-- The stored activity built by `addActivity`: caller input plus generated
id `${taskId}-${Date.now()}` and current timestamp. -/
def mkNewActivity (taskId : String) (activity : ActivityInput)
    (nowMillis : Nat) (now : String) : Activity :=
  { id := taskId ++ "-" ++ toString nowMillis
    type := activity.type
    text := activity.text
    author := activity.author
    timestamp := now
    metadata := activity.metadata }

/-- `addActivity`: read, fail "Task not found" when absent, append one
activity, put the whole task back. -/
def addActivity (tbl : Table) (domain taskId : String) (activity : ActivityInput)
    (nowMillis : Nat) (now : String) : Except String Task × Table :=
  match getTask tbl domain taskId with
  | none => (.error "Task not found", tbl)
  | some task =>
    (.ok { task with activities := task.activities ++ [mkNewActivity taskId activity nowMillis now]
                     updatedAt := now },
     putItem tbl (mkTaskItem domain
       { task with activities := task.activities ++ [mkNewActivity taskId activity nowMillis now]
                   updatedAt := now }
       task.createdAt task.createdAt now))

/-- `Partial<Ticket>`. -/
structure TicketPatch where
  id : Option String
  title : Option String
  description : Option String
  status : Option String
  type : Option String
  assignedTo : Option String
  domain : Option String
  createdAt : Option String
  updatedAt : Option String
  createdBy : Option String
deriving DecidableEq, Repr

/-- `normalizeTicket`: default a missing `type` to "feature" on read. -/
def normalizeTicket (t : Ticket) : Ticket :=
  { t with type := some (t.type.getD "feature") }

def mkTicketItem (domain : String) (ticket : Ticket) (gsi1sk createdAt updatedAt : String) :
    DBItem :=
  { PK := buildTicketPK domain ticket.id
    SK := buildMetaSK
    GSI1PK := buildDomainGSI1PK domain "TICKET"
    GSI1SK := gsi1sk
    entityType := "TICKET"
    domain := domain
    data := .ticket ticket
    createdAt := createdAt
    updatedAt := updatedAt }

/-- `getTicket`: point lookup, normalized, `null` when absent. -/
def getTicket (tbl : Table) (domain ticketId : String) : Option Ticket :=
  ((findItem tbl (buildTicketPK domain ticketId) buildMetaSK).bind
    (fun it => it.data.asTicket)).map normalizeTicket

/-- `updateTicket` (store source lines 326–371): shallow merge with `id` and
`domain` re-pinned and `type` defaulted through `?? 'feature'`. -/
def updateTicket (tbl : Table) (domain ticketId : String) (updates : TicketPatch)
    (updatedBy : String) (now : String) : Except String Ticket × Table :=
  match getTicket tbl domain ticketId with
  | none => (.error "Ticket not found", tbl)
  | some existingTicket =>
    (.ok { id := ticketId
           title := updates.title.getD existingTicket.title
           description := updates.description.getD existingTicket.description
           status := updates.status.getD existingTicket.status
           type := some ((updates.type.or existingTicket.type).getD "feature")
           assignedTo := updates.assignedTo.or existingTicket.assignedTo
           domain := domain
           createdAt := updates.createdAt.getD existingTicket.createdAt
           updatedAt := now
           createdBy := updates.createdBy.getD existingTicket.createdBy },
     putItem tbl (mkTicketItem domain
       { id := ticketId
         title := updates.title.getD existingTicket.title
         description := updates.description.getD existingTicket.description
         status := updates.status.getD existingTicket.status
         type := some ((updates.type.or existingTicket.type).getD "feature")
         assignedTo := updates.assignedTo.or existingTicket.assignedTo
         domain := domain
         createdAt := updates.createdAt.getD existingTicket.createdAt
         updatedAt := now
         createdBy := updates.createdBy.getD existingTicket.createdBy }
       existingTicket.createdAt existingTicket.createdAt now))

/-- The generated user id `user-${Date.now()}-${Math.random()...}`. -/
def userIdOf (epochMillis : Nat) (rand : String) : String :=
  "user-" ++ toString epochMillis ++ "-" ++ rand

def mkUserItem (domain : String) (user : UserProfile) (gsi1sk createdAt updatedAt : String) :
    DBItem :=
  { PK := buildUserPK domain user.userId
    SK := buildMetaSK
    GSI1PK := buildDomainGSI1PK domain "USER"
    GSI1SK := gsi1sk
    entityType := "USER"
    domain := domain
    data := .user user
    createdAt := createdAt
    updatedAt := updatedAt }

/-- `getUser`: point lookup, `null` when absent. -/
def getUser (tbl : Table) (domain userId : String) : Option UserProfile :=
  (findItem tbl (buildUserPK domain userId) buildMetaSK).bind (fun it => it.data.asUser)

/-- `getUsers`: GSI1 query for all users of the domain. -/
def getUsers (tbl : Table) (domain : String) : List UserProfile :=
  (queryGSI1 tbl (buildDomainGSI1PK domain "USER")).filterMap (fun it => it.data.asUser)

/-- `getUserByEmail`: linear scan of the domain's users, case-insensitive. -/
def getUserByEmail (tbl : Table) (domain email : String) : Option UserProfile :=
  (getUsers tbl domain).find? (fun u => jsToLower u.email == jsToLower email)

/-- The creation payload of `createUser` (email, name, role). -/
structure CreateUserData where
  email : String
  name : String
  role : String
deriving DecidableEq, Repr

/-- `createUser`: duplicate-email existence check first (conflict error),
then store the profile with a lowercased email. -/
def createUser (tbl : Table) (domain : String) (userData : CreateUserData)
    (epochMillis : Nat) (rand : String) (now : String) :
    Except String UserProfile × Table :=
  match getUserByEmail tbl domain userData.email with
  | some _ => (.error "User with this email already exists", tbl)
  | none =>
    (.ok { userId := userIdOf epochMillis rand
           email := jsToLower userData.email
           name := userData.name
           domain := domain
           role := userData.role
           createdAt := now
           updatedAt := now },
     putItem tbl (mkUserItem domain
       { userId := userIdOf epochMillis rand
         email := jsToLower userData.email
         name := userData.name
         domain := domain
         role := userData.role
         createdAt := now
         updatedAt := now } now now now))

/-- `Partial<Pick<UserProfile, 'name' | 'role'>>`, extended with the identity
fields a raw JSON body could smuggle in; `updateUser` re-pins them all. -/
structure UserPatch where
  name : Option String
  role : Option String
  userId : Option String
  email : Option String
  domain : Option String
  createdAt : Option String
  updatedAt : Option String
deriving DecidableEq, Repr

/-- `updateUser` (store source lines 536–576): merge `name`/`role`, re-pin
`userId`, `email` and `domain`, refresh `updatedAt`. -/
def updateUser (tbl : Table) (domain userId : String) (updates : UserPatch)
    (now : String) : Except String UserProfile × Table :=
  match getUser tbl domain userId with
  | none => (.error "User not found", tbl)
  | some existingUser =>
    (.ok { userId := userId
           email := existingUser.email
           name := updates.name.getD existingUser.name
           domain := domain
           role := updates.role.getD existingUser.role
           createdAt := updates.createdAt.getD existingUser.createdAt
           updatedAt := now },
     putItem tbl (mkUserItem domain
       { userId := userId
         email := existingUser.email
         name := updates.name.getD existingUser.name
         domain := domain
         role := updates.role.getD existingUser.role
         createdAt := updates.createdAt.getD existingUser.createdAt
         updatedAt := now }
       existingUser.createdAt existingUser.createdAt now))

/-- Outcome of a handler invocation: HTTP status, the task in the response
body (for 200 responses of the link/unlink handlers), and the table state
after the writes that happened before the response was produced. -/
structure HandlerResult where
  statusCode : Nat
  task : Option Task
  table : Table
deriving DecidableEq, Repr

/-- `linkedTask?.title || 'Unknown task'` — the display title of the other
task used in link/unlink activity texts. -/
def linkedTitle (tbl : Table) (domain linkedTaskId : String) : String :=
  match getTask tbl domain linkedTaskId with
  | some lt => if lt.title = "" then "Unknown task" else lt.title
  | none => "Unknown task"

/-- `linkTaskHandler` (tasks.ts lines 385–441): missing-id checks, 404 when
the task is absent, 400 when already linked, otherwise append the id via
`updateTask`, log one `assignment` activity, and return the re-fetched task.
A thrown store error is caught and mapped to 500 (writes so far persist). -/
def linkTaskHandler (tbl : Table) (domain email taskId linkedTaskId : String)
    (nowMillis : Nat) (now : String) : HandlerResult :=
  if taskId = "" then ⟨400, none, tbl⟩
  else if linkedTaskId = "" then ⟨400, none, tbl⟩
  else
    match getTask tbl domain taskId with
    | none => ⟨404, none, tbl⟩
    | some task =>
      if task.linkedTasks.contains linkedTaskId then ⟨400, none, tbl⟩
      else
        match updateTask tbl domain taskId
            { emptyTaskPatch with linkedTasks := some (task.linkedTasks ++ [linkedTaskId]) }
            email nowMillis now with
        | (.error _, tbl2) => ⟨500, none, tbl2⟩
        | (.ok _, tbl2) =>
          match addActivity tbl2 domain taskId
              { type := "assignment"
                text := "Linked to task: " ++ linkedTitle tbl domain linkedTaskId
                author := email
                metadata := none } nowMillis now with
          | (.error _, tbl3) => ⟨500, none, tbl3⟩
          | (.ok _, tbl3) => ⟨200, getTask tbl3 domain taskId, tbl3⟩

/-- `unlinkTaskHandler` (tasks.ts lines 444–493): missing-id checks, 404 when
the task is absent, otherwise filter the id out of `linkedTasks` (with no
membership check), log one `assignment` "Unlinked" activity, and return the
re-fetched task. -/
def unlinkTaskHandler (tbl : Table) (domain email taskId linkedTaskId : String)
    (nowMillis : Nat) (now : String) : HandlerResult :=
  if taskId = "" ∨ linkedTaskId = "" then ⟨400, none, tbl⟩
  else
    match getTask tbl domain taskId with
    | none => ⟨404, none, tbl⟩
    | some task =>
      match updateTask tbl domain taskId
          { emptyTaskPatch with linkedTasks := some (task.linkedTasks.filter (fun i => i != linkedTaskId)) }
          email nowMillis now with
      | (.error _, tbl2) => ⟨500, none, tbl2⟩
      | (.ok _, tbl2) =>
        match addActivity tbl2 domain taskId
            { type := "assignment"
              text := "Unlinked from task: " ++ linkedTitle tbl domain linkedTaskId
              author := email
              metadata := none } nowMillis now with
        | (.error _, tbl3) => ⟨500, none, tbl3⟩
        | (.ok _, tbl3) => ⟨200, getTask tbl3 domain taskId, tbl3⟩

/-- Iterated `addActivity`: one store call per element, threading the table;
a failed call leaves the table unchanged, as the store does. -/
def addActivitySeq (tbl : Table) (domain taskId : String)
    (calls : List (ActivityInput × Nat × String)) : Table :=
  match calls with
  | [] => tbl
  | (a, nm, now) :: rest =>
    addActivitySeq (addActivity tbl domain taskId a nm now).2 domain taskId rest

/-- Concrete fixture: a stored task in domain "acme" with status "backlog". -/
def sampleTask : Task :=
  { id := "task-1-a"
    title := "T"
    description := ""
    status := "backlog"
    activities := [{ id := "task-1-a-created", type := "created", text := "Task created",
                     author := "bob", timestamp := "2024-01-01", metadata := none }]
    hoursSpent := 0
    hoursExpected := 0
    assignedTo := ""
    linkedTasks := []
    dueDate := none
    startDate := none
    domain := "acme"
    createdAt := "2024-01-01"
    updatedAt := "2024-01-01"
    createdBy := "bob" }

/-- Concrete fixture: a stored ticket in domain "acme". -/
def sampleTicket : Ticket :=
  { id := "ticket-1-a"
    title := "K"
    description := ""
    status := "new"
    type := some "bug"
    assignedTo := none
    domain := "acme"
    createdAt := "2024-01-01"
    updatedAt := "2024-01-01"
    createdBy := "bob" }

/-- Concrete fixture: a stored user profile in domain "acme". -/
def sampleUser : UserProfile :=
  { userId := "user-1-a"
    email := "a@x.com"
    name := "A"
    domain := "acme"
    role := "member"
    createdAt := "2024-01-01"
    updatedAt := "2024-01-01" }

/-- Concrete fixture: a table holding the three sample entities. -/
def sampleTable : Table :=
  [mkTaskItem "acme" sampleTask "2024-01-01" "2024-01-01" "2024-01-01",
   mkTicketItem "acme" sampleTicket "2024-01-01" "2024-01-01" "2024-01-01",
   mkUserItem "acme" sampleUser "2024-01-01" "2024-01-01" "2024-01-01"]

/-- Concrete fixture: the profile stored by the first `createUser` call of
the duplicate-email scenario. -/
def c7User : UserProfile :=
  { userId := "user-1-aa"
    email := "a@x.com"
    name := "A"
    domain := "x"
    role := "member"
    createdAt := "2024-01-01"
    updatedAt := "2024-01-01" }

/-- Concrete fixture: the table after that first `createUser` call. -/
def c7Tbl : Table :=
  [mkUserItem "x" c7User "2024-01-01" "2024-01-01" "2024-01-01"]

/-- Concrete fixture: a stored task that already links to "task-9-z". -/
def c10Task : Task :=
  { sampleTask with id := "task-2-b", linkedTasks := ["task-9-z"] }

/-- Concrete fixture: a table holding only `c10Task`. -/
def c10Table : Table :=
  [mkTaskItem "acme" c10Task "2024-01-01" "2024-01-01" "2024-01-01"]

/-- Concrete fixture: the first freshly created task of the link/unlink
scenario. -/
def c8T1 : Task := mkFreshTask "acme" emptyTaskPatch "bob" 1 "aa" "2024-01-01"

/-- Concrete fixture: the table after creating `c8T1` in the empty table. -/
def c8Tbl1 : Table :=
  (createTask ([] : Table) "acme" emptyTaskPatch "bob" 1 "aa" "2024-01-01").2

/-- Concrete fixture: the second freshly created task of the scenario. -/
def c8T2 : Task := mkFreshTask "acme" emptyTaskPatch "bob" 2 "bb" "2024-01-02"

/-- Concrete fixture: the table after creating both scenario tasks. -/
def c8Tbl2 : Table :=
  (createTask c8Tbl1 "acme" emptyTaskPatch "bob" 2 "bb" "2024-01-02").2

theorem string_append_cancel_right (a b c : String) (h : a ++ c = b ++ c) : a = b := by
  have hd : a.data ++ c.data = b.data ++ c.data := by
    have h2 := congrArg String.data h
    simpa [String.data_append] using h2
  have h3 := List.append_cancel_right hd
  cases a; cases b; exact congrArg String.mk h3

theorem string_append_cancel_left (a b c : String) (h : a ++ b = a ++ c) : b = c := by
  have hd : a.data ++ b.data = a.data ++ c.data := by
    have h2 := congrArg String.data h
    simpa [String.data_append] using h2
  have h3 := List.append_cancel_left hd
  cases b; cases c; exact congrArg String.mk h3

/-- With a fixed task id the PK determines the domain. -/
theorem buildTaskPK_domain_inj (d1 d2 idv : String)
    (h : buildTaskPK d1 idv = buildTaskPK d2 idv) : d1 = d2 := by
  unfold buildTaskPK at h
  have h1 := string_append_cancel_right _ _ _ h
  have h2 := string_append_cancel_right _ _ _ h1
  exact string_append_cancel_left _ _ _ h2

/-- With a fixed domain the PK determines the task id. -/
theorem buildTaskPK_id_inj (d id1 id2 : String)
    (h : buildTaskPK d id1 = buildTaskPK d id2) : id1 = id2 := by
  unfold buildTaskPK at h
  exact string_append_cancel_left _ _ _ h

theorem taskIdOf_ne_empty (e : Nat) (r : String) : taskIdOf e r ≠ "" := by
  intro h
  have h2 := congrArg String.length h
  simp [taskIdOf, String.length_append] at h2
  exact absurd h2.1.1.1 (by decide)

theorem findItem_cons (it : DBItem) (tbl : Table) (pk sk : String) :
    findItem (it :: tbl) pk sk =
      if it.PK = pk ∧ it.SK = sk then some it else findItem tbl pk sk := by
  by_cases h : it.PK = pk ∧ it.SK = sk
  · have hb : (it.PK == pk && it.SK == sk) = true := by simp [h.1, h.2]
    simp [findItem, List.find?, hb, h]
  · have hb : (it.PK == pk && it.SK == sk) = false := by
      rcases Decidable.not_and_iff_or_not.mp h with h1 | h1 <;> simp [h1]
    simp [findItem, List.find?, hb, h]

theorem findItem_erase (tbl : Table) (pk1 sk1 pk sk : String) :
    findItem (eraseItem tbl pk1 sk1) pk sk =
      if pk = pk1 ∧ sk = sk1 then none else findItem tbl pk sk := by
  induction tbl with
  | nil => simp [findItem, eraseItem]
  | cons it rest ih =>
    by_cases hk : it.PK = pk1 ∧ it.SK = sk1
    · have herase : eraseItem (it :: rest) pk1 sk1 = eraseItem rest pk1 sk1 := by
        simp [eraseItem, hk.1, hk.2]
      rw [herase, ih, findItem_cons]
      by_cases hq : pk = pk1 ∧ sk = sk1
      · simp [hq]
      · rw [if_neg hq, if_neg hq, if_neg]
        intro hc
        exact hq ⟨hk.1 ▸ hc.1.symm, hk.2 ▸ hc.2.symm⟩
    · have herase : eraseItem (it :: rest) pk1 sk1 = it :: eraseItem rest pk1 sk1 := by
        simp only [eraseItem, List.filter]
        have : (it.PK == pk1 && it.SK == sk1) = false := by
          rcases Decidable.not_and_iff_or_not.mp hk with h | h <;> simp [h]
        simp [this, eraseItem]
      rw [herase, findItem_cons, findItem_cons, ih]
      by_cases hq : it.PK = pk ∧ it.SK = sk
      · rw [if_pos hq, if_pos hq, if_neg]
        intro hc
        exact hk ⟨hq.1.symm ▸ hc.1, hq.2.symm ▸ hc.2⟩
      · rw [if_neg hq, if_neg hq]

theorem findItem_put (tbl : Table) (it : DBItem) (pk sk : String) :
    findItem (putItem tbl it) pk sk =
      if it.PK = pk ∧ it.SK = sk then some it else findItem tbl pk sk := by
  rw [putItem, findItem_cons]
  by_cases h : it.PK = pk ∧ it.SK = sk
  · rw [if_pos h, if_pos h]
  · rw [if_neg h, if_neg h, findItem_erase, if_neg]
    intro hc
    exact h ⟨hc.1.symm, hc.2.symm⟩

theorem getTask_put_self (tbl : Table) (d : String) (t : Task) (g c u : String) :
    getTask (putItem tbl (mkTaskItem d t g c u)) d t.id = some t := by
  simp [getTask, findItem_put, mkTaskItem, EntityData.asTask]

theorem getTask_put_ne (tbl : Table) (it : DBItem) (d tid : String)
    (h : it.PK ≠ buildTaskPK d tid) :
    getTask (putItem tbl it) d tid = getTask tbl d tid := by
  unfold getTask
  rw [findItem_put, if_neg]
  intro hc
  exact h hc.1

theorem getTicket_put_self (tbl : Table) (d : String) (t : Ticket) (g c u : String) :
    getTicket (putItem tbl (mkTicketItem d t g c u)) d t.id = some (normalizeTicket t) := by
  simp [getTicket, findItem_put, mkTicketItem, EntityData.asTicket]

theorem getUser_put_self (tbl : Table) (d : String) (v : UserProfile) (g c u : String) :
    getUser (putItem tbl (mkUserItem d v g c u)) d v.userId = some v := by
  simp [getUser, findItem_put, mkUserItem, EntityData.asUser]

theorem updateTask_eq_of_found (tbl : Table) (d tid : String) (e : Task)
    (p : TaskPatch) (u : String) (nm : Nat) (now : String)
    (h : getTask tbl d tid = some e) :
    updateTask tbl d tid p u nm now =
      (.ok (applyUpdate d tid e p u nm now),
       putItem tbl (mkTaskItem d (applyUpdate d tid e p u nm now)
         e.createdAt e.createdAt now)) := by
  unfold updateTask
  rw [h]

theorem addActivity_eq_of_found (tbl : Table) (d tid : String) (e : Task)
    (a : ActivityInput) (nm : Nat) (now : String)
    (h : getTask tbl d tid = some e) :
    addActivity tbl d tid a nm now =
      (.ok { e with activities := e.activities ++ [mkNewActivity tid a nm now]
                    updatedAt := now },
       putItem tbl (mkTaskItem d
         { e with activities := e.activities ++ [mkNewActivity tid a nm now]
                  updatedAt := now }
         e.createdAt e.createdAt now)) := by
  unfold addActivity
  rw [h]

theorem applyUpdate_id (d tid : String) (e : Task) (p : TaskPatch) (u : String)
    (nm : Nat) (now : String) : (applyUpdate d tid e p u nm now).id = tid := rfl

theorem getTask_update_found (tbl : Table) (d tid : String) (e : Task)
    (p : TaskPatch) (u : String) (nm : Nat) (now : String)
    (h : getTask tbl d tid = some e) :
    getTask (updateTask tbl d tid p u nm now).2 d tid =
      some (applyUpdate d tid e p u nm now) := by
  rw [updateTask_eq_of_found tbl d tid e p u nm now h]
  exact getTask_put_self tbl d (applyUpdate d tid e p u nm now) e.createdAt e.createdAt now

theorem getTask_addActivity_found (tbl : Table) (d tid : String) (e : Task)
    (a : ActivityInput) (nm : Nat) (now : String)
    (h : getTask tbl d tid = some e) (hid : e.id = tid) :
    getTask (addActivity tbl d tid a nm now).2 d tid =
      some { e with activities := e.activities ++ [mkNewActivity tid a nm now]
                    updatedAt := now } := by
  rw [addActivity_eq_of_found tbl d tid e a nm now h]
  have h2 := getTask_put_self tbl d
    { e with activities := e.activities ++ [mkNewActivity tid a nm now], updatedAt := now }
    e.createdAt e.createdAt now
  simpa [hid] using h2

/-- C1: `updateTask` appends activities by diffing the patch against the
stored previous state: a status patch different from the stored status
appends exactly one `status_change` activity carrying the stored old value
and the new value; a status patch equal to the stored status appends zero
activities even though the field is present; the comparison always uses the
stored previous value.  Instantiated at a stored status of "backlog" with
patches "in-progress" (one activity) and "backlog" (zero activities). -/
theorem updateTask_activity_diff_correct (tbl : Table) (d tid : String) (e : Task)
    (u : String) (nm : Nat) (now : String)
    (h : getTask tbl d tid = some e) (hs : e.status = "backlog") :
    (∀ s : String, s ≠ "" →
      Except.map Task.activities
          (updateTask tbl d tid { emptyTaskPatch with status := some s } u nm now).1 =
        .ok (if s = e.status then e.activities
             else e.activities ++
               [{ id := tid ++ "-" ++ toString nm ++ "-status"
                  type := "status_change"
                  text := "Status changed from " ++ e.status ++ " to " ++ s
                  author := u
                  timestamp := now
                  metadata := some { oldValue := some e.status
                                     newValue := some s
                                     fieldName := some "status" } }])) ∧
    (Except.map Task.activities
        (updateTask tbl d tid { emptyTaskPatch with status := some "in-progress" } u nm now).1 =
      .ok (e.activities ++
        [{ id := tid ++ "-" ++ toString nm ++ "-status"
           type := "status_change"
           text := "Status changed from backlog to in-progress"
           author := u
           timestamp := now
           metadata := some { oldValue := some "backlog"
                              newValue := some "in-progress"
                              fieldName := some "status" } }])) ∧
    (Except.map Task.activities
        (updateTask tbl d tid { emptyTaskPatch with status := some "backlog" } u nm now).1 =
      .ok e.activities) := by
  refine ⟨?_, ?_, ?_⟩
  · intro s hs0
    rw [updateTask_eq_of_found tbl d tid e _ u nm now h]
    by_cases heq : s = e.status
    · simp [applyUpdate, diffActivities, emptyTaskPatch, heq, Except.map]
    · simp [applyUpdate, diffActivities, emptyTaskPatch, heq, hs0, Except.map]
  · rw [updateTask_eq_of_found tbl d tid e _ u nm now h]
    simp [applyUpdate, diffActivities, emptyTaskPatch, hs, Except.map]
  · rw [updateTask_eq_of_found tbl d tid e _ u nm now h]
    simp [applyUpdate, diffActivities, emptyTaskPatch, hs, Except.map]

theorem updateTask_activity_diff_correct_witness :
    getTask sampleTable "acme" "task-1-a" = some sampleTask ∧
    sampleTask.status = "backlog" ∧
    ((∀ s : String, s ≠ "" →
      Except.map Task.activities
          (updateTask sampleTable "acme" "task-1-a" { emptyTaskPatch with status := some s } "alice" 7 "2024-02-02").1 =
        .ok (if s = sampleTask.status then sampleTask.activities
             else sampleTask.activities ++
               [{ id := "task-1-a" ++ "-" ++ toString 7 ++ "-status"
                  type := "status_change"
                  text := "Status changed from " ++ sampleTask.status ++ " to " ++ s
                  author := "alice"
                  timestamp := "2024-02-02"
                  metadata := some { oldValue := some sampleTask.status
                                     newValue := some s
                                     fieldName := some "status" } }])) ∧
    (Except.map Task.activities
        (updateTask sampleTable "acme" "task-1-a" { emptyTaskPatch with status := some "in-progress" } "alice" 7 "2024-02-02").1 =
      .ok (sampleTask.activities ++
        [{ id := "task-1-a" ++ "-" ++ toString 7 ++ "-status"
           type := "status_change"
           text := "Status changed from backlog to in-progress"
           author := "alice"
           timestamp := "2024-02-02"
           metadata := some { oldValue := some "backlog"
                              newValue := some "in-progress"
                              fieldName := some "status" } }])) ∧
    (Except.map Task.activities
        (updateTask sampleTable "acme" "task-1-a" { emptyTaskPatch with status := some "backlog" } "alice" 7 "2024-02-02").1 =
      .ok sampleTask.activities)) :=
  ⟨by decide, rfl,
   updateTask_activity_diff_correct sampleTable "acme" "task-1-a" sampleTask
     "alice" 7 "2024-02-02" (by decide) rfl⟩

/-- C9: `updateTask` ignores any caller-supplied `activities` field in the
patch — for every patch, the returned and the stored activities equal the
previously stored activities followed by the diff-generated ones, so the
activity log cannot be truncated or rewritten through update. -/
theorem updateTask_ignores_patch_activities (tbl : Table) (d tid : String) (e : Task)
    (p : TaskPatch) (u : String) (nm : Nat) (now : String)
    (h : getTask tbl d tid = some e) :
    Except.map Task.activities (updateTask tbl d tid p u nm now).1 =
      .ok (e.activities ++ diffActivities tid e p u nm now) ∧
    (getTask (updateTask tbl d tid p u nm now).2 d tid).map Task.activities =
      some (e.activities ++ diffActivities tid e p u nm now) := by
  constructor
  · rw [updateTask_eq_of_found tbl d tid e p u nm now h]
    simp [applyUpdate, Except.map]
  · rw [getTask_update_found tbl d tid e p u nm now h]
    simp [applyUpdate]

theorem updateTask_ignores_patch_activities_witness :
    getTask sampleTable "acme" "task-1-a" = some sampleTask ∧
    (Except.map Task.activities
        (updateTask sampleTable "acme" "task-1-a" { emptyTaskPatch with activities := some [] } "alice" 7 "2024-02-02").1 =
      .ok (sampleTask.activities ++
        diffActivities "task-1-a" sampleTask { emptyTaskPatch with activities := some [] } "alice" 7 "2024-02-02") ∧
    (getTask (updateTask sampleTable "acme" "task-1-a" { emptyTaskPatch with activities := some [] } "alice" 7 "2024-02-02").2
        "acme" "task-1-a").map Task.activities =
      some (sampleTask.activities ++
        diffActivities "task-1-a" sampleTask { emptyTaskPatch with activities := some [] } "alice" 7 "2024-02-02")) :=
  ⟨by decide,
   updateTask_ignores_patch_activities sampleTable "acme" "task-1-a" sampleTask
     { emptyTaskPatch with activities := some [] } "alice" 7 "2024-02-02" (by decide)⟩

/-- C5 counterexample: `deleteTask` on a missing entity does NOT raise a
"not found" error — on the empty table it returns successfully (and leaves
the table empty), contradicting the claim that delete raises "not found". -/
theorem deleteTask_missing_does_not_error :
    deleteTask ([] : Table) "acme" "task-1" = (.ok (), ([] : Table)) := rfl

/-- C5 amended: `getTask` on a missing entity returns an absent value (never
an error); `updateTask` and `addActivity` on a missing entity raise a
"Task not found" error without writing; `deleteTask` performs no existence
check and returns without error. -/
theorem notfound_behaviour (tbl : Table) (d tid : String) (p : TaskPatch)
    (u : String) (nm : Nat) (now : String) (a : ActivityInput)
    (h : getTask tbl d tid = none) :
    (findItem tbl (buildTaskPK d tid) buildMetaSK = none → getTask tbl d tid = none) ∧
    updateTask tbl d tid p u nm now = (.error "Task not found", tbl) ∧
    addActivity tbl d tid a nm now = (.error "Task not found", tbl) ∧
    (deleteTask tbl d tid).1 = .ok () := by
  refine ⟨?_, ?_, ?_, rfl⟩
  · intro hf
    unfold getTask
    rw [hf]
    rfl
  · unfold updateTask
    rw [h]
  · unfold addActivity
    rw [h]

theorem notfound_behaviour_witness :
    getTask ([] : Table) "acme" "task-1" = none ∧
    ((findItem ([] : Table) (buildTaskPK "acme" "task-1") buildMetaSK = none →
        getTask ([] : Table) "acme" "task-1" = none) ∧
     updateTask ([] : Table) "acme" "task-1" emptyTaskPatch "alice" 7 "2024-02-02" =
       (.error "Task not found", ([] : Table)) ∧
     addActivity ([] : Table) "acme" "task-1" ⟨"comment", "hi", "alice", none⟩ 7 "2024-02-02" =
       (.error "Task not found", ([] : Table)) ∧
     (deleteTask ([] : Table) "acme" "task-1").1 = .ok ()) :=
  ⟨rfl, notfound_behaviour ([] : Table) "acme" "task-1" emptyTaskPatch
    "alice" 7 "2024-02-02" ⟨"comment", "hi", "alice", none⟩ rfl⟩

/-- C6: delete is idempotent — for every table, domain and id, neither the
first nor the second `deleteTask` raises, and after either call the task is
absent. -/
theorem deleteTask_idempotent (tbl : Table) (d tid : String) :
    (deleteTask tbl d tid).1 = .ok () ∧
    (deleteTask (deleteTask tbl d tid).2 d tid).1 = .ok () ∧
    getTask (deleteTask tbl d tid).2 d tid = none ∧
    getTask (deleteTask (deleteTask tbl d tid).2 d tid).2 d tid = none := by
  refine ⟨rfl, rfl, ?_, ?_⟩
  · unfold getTask deleteTask
    rw [findItem_erase, if_pos ⟨rfl, rfl⟩]
    rfl
  · unfold getTask deleteTask
    rw [findItem_erase, if_pos ⟨rfl, rfl⟩]
    rfl

/-- C2 counterexample: key spaces of distinct domains are NOT disjoint for
every key-building input — a domain containing the "#TASK#" separator
aliases another (domain, id) pair.  The task created under domain
"a#TASK#b" is returned by a get under the different domain "a". -/
theorem domain_isolation_counterexample :
    ("a" : String) ≠ "a#TASK#b" ∧
    (getTask (createTask ([] : Table) "a#TASK#b" emptyTaskPatch "bob" 0 "x" "2024-01-01").2
        "a" "b#TASK#task-0-x").map Task.domain = some "a#TASK#b" := by
  constructor
  · decide
  · rfl

/-- C2 amended: domain isolation holds for equal entity ids — for distinct
domains d1 ≠ d2, creating a task under d2 is invisible to a point get under
d1 at the same (generated) id, because the primary keys differ. -/
theorem domain_isolation_equal_ids (tbl : Table) (d1 d2 : String) (td : TaskPatch)
    (cb : String) (e : Nat) (r : String) (now : String) (hne : d1 ≠ d2) :
    getTask (createTask tbl d2 td cb e r now).2 d1 (taskIdOf e r) =
      getTask tbl d1 (taskIdOf e r) := by
  unfold createTask
  apply getTask_put_ne
  intro hc
  have hc2 : buildTaskPK d2 (taskIdOf e r) = buildTaskPK d1 (taskIdOf e r) := hc
  exact hne (buildTaskPK_domain_inj d2 d1 (taskIdOf e r) hc2).symm

theorem domain_isolation_equal_ids_witness :
    ("acme" : String) ≠ "beta" ∧
    getTask (createTask ([] : Table) "beta" emptyTaskPatch "bob" 0 "x" "2024-01-01").2
        "acme" (taskIdOf 0 "x") =
      getTask ([] : Table) "acme" (taskIdOf 0 "x") :=
  ⟨by decide,
   domain_isolation_equal_ids ([] : Table) "acme" "beta" emptyTaskPatch
     "bob" 0 "x" "2024-01-01" (by decide)⟩

/-- C3: update ignores identity overrides — for every existing entity and
every update payload (including payloads setting `id` or `domain` to a
different value), the entity returned and stored by `updateTask`,
`updateTicket` and `updateUser` keeps the pre-call `id` and `domain`. -/
theorem update_preserves_identity_fields
    (tblA : Table) (dA idA : String) (eA : Task) (pA : TaskPatch) (uA : String)
    (nmA : Nat) (nowA : String)
    (tblB : Table) (dB idB : String) (eB : Ticket) (pB : TicketPatch) (uB nowB : String)
    (tblC : Table) (dC idC : String) (eC : UserProfile) (pC : UserPatch) (nowC : String)
    (hA : getTask tblA dA idA = some eA) (hA1 : eA.id = idA) (hA2 : eA.domain = dA)
    (hB : getTicket tblB dB idB = some eB) (hB1 : eB.id = idB) (hB2 : eB.domain = dB)
    (hC : getUser tblC dC idC = some eC) (hC1 : eC.userId = idC) (hC2 : eC.domain = dC) :
    (Except.map (fun t => (t.id, t.domain)) (updateTask tblA dA idA pA uA nmA nowA).1 =
        .ok (eA.id, eA.domain) ∧
      (getTask (updateTask tblA dA idA pA uA nmA nowA).2 dA idA).map
          (fun t => (t.id, t.domain)) = some (eA.id, eA.domain)) ∧
    (Except.map (fun t => (t.id, t.domain)) (updateTicket tblB dB idB pB uB nowB).1 =
        .ok (eB.id, eB.domain) ∧
      (getTicket (updateTicket tblB dB idB pB uB nowB).2 dB idB).map
          (fun t => (t.id, t.domain)) = some (eB.id, eB.domain)) ∧
    (Except.map (fun v => (v.userId, v.domain)) (updateUser tblC dC idC pC nowC).1 =
        .ok (eC.userId, eC.domain) ∧
      (getUser (updateUser tblC dC idC pC nowC).2 dC idC).map
          (fun v => (v.userId, v.domain)) = some (eC.userId, eC.domain)) := by
  refine ⟨⟨?_, ?_⟩, ⟨?_, ?_⟩, ⟨?_, ?_⟩⟩
  · rw [updateTask_eq_of_found tblA dA idA eA pA uA nmA nowA hA]
    simp [applyUpdate, Except.map, hA1, hA2]
  · rw [getTask_update_found tblA dA idA eA pA uA nmA nowA hA]
    simp [applyUpdate, hA1, hA2]
  · unfold updateTicket
    rw [hB]
    simp [Except.map, hB1, hB2]
  · unfold updateTicket
    rw [hB]
    simp only []
    simp [getTicket, findItem_put, mkTicketItem, EntityData.asTicket,
          normalizeTicket, hB1, hB2]
  · unfold updateUser
    rw [hC]
    simp [Except.map, hC1, hC2]
  · unfold updateUser
    rw [hC]
    simp only []
    simp [getUser, findItem_put, mkUserItem, EntityData.asUser, hC1, hC2]

theorem update_preserves_identity_fields_witness :
    getTask sampleTable "acme" "task-1-a" = some sampleTask ∧
    sampleTask.id = "task-1-a" ∧ sampleTask.domain = "acme" ∧
    getTicket sampleTable "acme" "ticket-1-a" = some sampleTicket ∧
    sampleTicket.id = "ticket-1-a" ∧ sampleTicket.domain = "acme" ∧
    getUser sampleTable "acme" "user-1-a" = some sampleUser ∧
    sampleUser.userId = "user-1-a" ∧ sampleUser.domain = "acme" ∧
    ((Except.map (fun t => (t.id, t.domain))
        (updateTask sampleTable "acme" "task-1-a"
          { emptyTaskPatch with id := some "evil", domain := some "evil" }
          "alice" 7 "2024-02-02").1 = .ok (sampleTask.id, sampleTask.domain) ∧
      (getTask (updateTask sampleTable "acme" "task-1-a"
          { emptyTaskPatch with id := some "evil", domain := some "evil" }
          "alice" 7 "2024-02-02").2 "acme" "task-1-a").map
          (fun t => (t.id, t.domain)) = some (sampleTask.id, sampleTask.domain)) ∧
    (Except.map (fun t => (t.id, t.domain))
        (updateTicket sampleTable "acme" "ticket-1-a"
          ⟨some "evil", none, none, none, none, none, some "evil", none, none, none⟩
          "alice" "2024-02-02").1 = .ok (sampleTicket.id, sampleTicket.domain) ∧
      (getTicket (updateTicket sampleTable "acme" "ticket-1-a"
          ⟨some "evil", none, none, none, none, none, some "evil", none, none, none⟩
          "alice" "2024-02-02").2 "acme" "ticket-1-a").map
          (fun t => (t.id, t.domain)) = some (sampleTicket.id, sampleTicket.domain)) ∧
    (Except.map (fun v => (v.userId, v.domain))
        (updateUser sampleTable "acme" "user-1-a"
          ⟨none, none, some "evil", some "evil@x.com", some "evil", none, none⟩
          "2024-02-02").1 = .ok (sampleUser.userId, sampleUser.domain) ∧
      (getUser (updateUser sampleTable "acme" "user-1-a"
          ⟨none, none, some "evil", some "evil@x.com", some "evil", none, none⟩
          "2024-02-02").2 "acme" "user-1-a").map
          (fun v => (v.userId, v.domain)) = some (sampleUser.userId, sampleUser.domain))) :=
  ⟨by decide, rfl, rfl, by decide, rfl, rfl, by decide, rfl, rfl,
   update_preserves_identity_fields
     sampleTable "acme" "task-1-a" sampleTask
     { emptyTaskPatch with id := some "evil", domain := some "evil" } "alice" 7 "2024-02-02"
     sampleTable "acme" "ticket-1-a" sampleTicket
     ⟨some "evil", none, none, none, none, none, some "evil", none, none, none⟩ "alice" "2024-02-02"
     sampleTable "acme" "user-1-a" sampleUser
     ⟨none, none, some "evil", some "evil@x.com", some "evil", none, none⟩ "2024-02-02"
     (by decide) rfl rfl (by decide) rfl rfl (by decide) rfl rfl⟩

theorem getUserByEmail_put_head (tbl : Table) (d : String) (v : UserProfile)
    (g c u2 em : String) (hm : (jsToLower v.email == jsToLower em) = true) :
    getUserByEmail (putItem tbl (mkUserItem d v g c u2)) d em = some v := by
  unfold getUserByEmail getUsers queryGSI1 putItem
  simp only [mkUserItem, List.filter]
  have hg : ((buildDomainGSI1PK d "USER" : String) == buildDomainGSI1PK d "USER") = true := by
    simp
  simp [hg, EntityData.asUser, List.find?, hm]

/-- C7: duplicate-email conflict — once `createUser` has succeeded for
"a@x.com" in a domain, a second `createUser` in the same domain with the
case-variant email "A@X.com" fails with the duplicate-email conflict and
writes nothing (the table is returned unchanged); the existence check
compares emails case-insensitively across the domain's users. -/
theorem createUser_duplicate_email_conflict (tbl0 : Table) (d n1 r1 n2 r2 : String)
    (e1 : Nat) (rr1 : String) (now1 : String) (e2 : Nat) (rr2 : String) (now2 : String)
    (u : UserProfile) (tbl1 : Table)
    (h : createUser tbl0 d ⟨"a@x.com", n1, r1⟩ e1 rr1 now1 = (.ok u, tbl1)) :
    createUser tbl1 d ⟨"A@X.com", n2, r2⟩ e2 rr2 now2 =
      (.error "User with this email already exists", tbl1) := by
  unfold createUser at h
  cases hfind : getUserByEmail tbl0 d "a@x.com" with
  | some w =>
    rw [hfind] at h
    simp [Prod.ext_iff] at h
  | none =>
    rw [hfind] at h
    simp only [Prod.ext_iff] at h
    obtain ⟨h1, h2⟩ := h
    have h1b : u = { userId := userIdOf e1 rr1, email := jsToLower "a@x.com", name := n1,
                     domain := d, role := r1, createdAt := now1, updatedAt := now1 } := by
      injection h1 with h1c
      exact h1c.symm
    subst h2
    unfold createUser
    have hm : (jsToLower (jsToLower "a@x.com") == jsToLower "A@X.com") = true := by decide
    rw [getUserByEmail_put_head tbl0 d _ now1 now1 now1 "A@X.com" hm]

theorem createUser_duplicate_email_conflict_witness :
    createUser ([] : Table) "x" ⟨"a@x.com", "A", "member"⟩ 1 "aa" "2024-01-01" =
      (.ok c7User, c7Tbl) ∧
    createUser c7Tbl "x" ⟨"A@X.com", "B", "member"⟩ 2 "bb" "2024-01-02" =
      (.error "User with this email already exists", c7Tbl) :=
  ⟨rfl,
   createUser_duplicate_email_conflict ([] : Table) "x" "A" "member" "B" "member"
     1 "aa" "2024-01-01" 2 "bb" "2024-01-02" c7User c7Tbl rfl⟩

theorem addActivitySeq_activities (d tid : String) :
    ∀ (calls : List (ActivityInput × Nat × String)) (tbl : Table) (e : Task),
      getTask tbl d tid = some e → e.id = tid →
      ∃ t2, getTask (addActivitySeq tbl d tid calls) d tid = some t2 ∧
        t2.id = tid ∧
        t2.activities =
          e.activities ++ calls.map (fun c => mkNewActivity tid c.1 c.2.1 c.2.2) := by
  intro calls
  induction calls with
  | nil =>
    intro tbl e h hid
    exact ⟨e, by simpa [addActivitySeq] using h, hid, by simp⟩
  | cons c rest ih =>
    intro tbl e h hid
    obtain ⟨a, nm, now⟩ := c
    have hstep := getTask_addActivity_found tbl d tid e a nm now h hid
    have hid2 : ({ e with activities := e.activities ++ [mkNewActivity tid a nm now]
                          updatedAt := now } : Task).id = tid := hid
    obtain ⟨t2, hget, hid3, hacts⟩ :=
      ih (addActivity tbl d tid a nm now).2 _ hstep hid2
    refine ⟨t2, by simpa [addActivitySeq] using hget, hid3, ?_⟩
    rw [hacts]
    simp

/-- C4: the activity log is append-only — for every stored task and every
sequence of `addActivity` calls, the resulting list has length equal to the
initial length plus the number of calls and keeps the pre-existing
activities as an unchanged prefix (hence their `id`s and `timestamp`s are
unchanged); `updateTask` likewise keeps the stored activities as a prefix,
and creating a task under a different key leaves the task untouched. -/
theorem activity_log_append_only (tbl : Table) (d tid : String) (e : Task)
    (calls : List (ActivityInput × Nat × String))
    (h : getTask tbl d tid = some e) (hid : e.id = tid) :
    (∃ t2, getTask (addActivitySeq tbl d tid calls) d tid = some t2 ∧
      t2.activities.length = e.activities.length + calls.length ∧
      t2.activities.take e.activities.length = e.activities) ∧
    (∀ p u nm now t3, (updateTask tbl d tid p u nm now).1 = .ok t3 →
      t3.activities.take e.activities.length = e.activities) ∧
    (∀ d2 td cb e2 r2 now2, buildTaskPK d2 (taskIdOf e2 r2) ≠ buildTaskPK d tid →
      getTask (createTask tbl d2 td cb e2 r2 now2).2 d tid = some e) := by
  refine ⟨?_, ?_, ?_⟩
  · obtain ⟨t2, hget, _, hacts⟩ := addActivitySeq_activities d tid calls tbl e h hid
    refine ⟨t2, hget, ?_, ?_⟩
    · rw [hacts]
      simp
    · rw [hacts]
      exact List.take_left _ _
  · intro p u nm now t3 ht
    rw [updateTask_eq_of_found tbl d tid e p u nm now h] at ht
    injection ht with ht2
    rw [← ht2]
    show (e.activities ++ diffActivities tid e p u nm now).take e.activities.length = _
    exact List.take_left _ _
  · intro d2 td cb e2 r2 now2 hne
    unfold createTask
    rw [getTask_put_ne]
    · exact h
    · exact hne

theorem activity_log_append_only_witness :
    getTask sampleTable "acme" "task-1-a" = some sampleTask ∧
    sampleTask.id = "task-1-a" ∧
    ((∃ t2, getTask (addActivitySeq sampleTable "acme" "task-1-a"
          [(⟨"comment", "hi", "alice", none⟩, 5, "2024-02-02"),
           (⟨"comment", "again", "alice", none⟩, 6, "2024-02-03")]) "acme" "task-1-a" = some t2 ∧
      t2.activities.length = sampleTask.activities.length + 2 ∧
      t2.activities.take sampleTask.activities.length = sampleTask.activities) ∧
    (∀ p u nm now t3,
      (updateTask sampleTable "acme" "task-1-a" p u nm now).1 = .ok t3 →
      t3.activities.take sampleTask.activities.length = sampleTask.activities) ∧
    (∀ d2 td cb e2 r2 now2,
      buildTaskPK d2 (taskIdOf e2 r2) ≠ buildTaskPK "acme" "task-1-a" →
      getTask (createTask sampleTable d2 td cb e2 r2 now2).2 "acme" "task-1-a" = some sampleTask)) :=
  ⟨by decide, rfl,
   activity_log_append_only sampleTable "acme" "task-1-a" sampleTask
     [(⟨"comment", "hi", "alice", none⟩, 5, "2024-02-02"),
      (⟨"comment", "again", "alice", none⟩, 6, "2024-02-03")]
     (by decide) rfl⟩

theorem linkTaskHandler_ok (tbl : Table) (d em tid l : String) (e : Task)
    (nm : Nat) (now : String)
    (h : getTask tbl d tid = some e) (hid : e.id = tid)
    (ht : tid ≠ "") (hl : l ≠ "")
    (hnot : e.linkedTasks.contains l = false) :
    ∃ t2 : Task,
      (linkTaskHandler tbl d em tid l nm now).statusCode = 200 ∧
      (linkTaskHandler tbl d em tid l nm now).task = some t2 ∧
      getTask (linkTaskHandler tbl d em tid l nm now).table d tid = some t2 ∧
      t2.id = tid ∧
      t2.linkedTasks = e.linkedTasks ++ [l] ∧
      t2.activities = e.activities ++
        [mkNewActivity tid
          ⟨"assignment", "Linked to task: " ++ linkedTitle tbl d l, em, none⟩ nm now] := by
  have hg2 : getTask
      (putItem tbl (mkTaskItem d
        (applyUpdate d tid e
          { emptyTaskPatch with linkedTasks := some (e.linkedTasks ++ [l]) } em nm now)
        e.createdAt e.createdAt now)) d tid =
      some (applyUpdate d tid e
        { emptyTaskPatch with linkedTasks := some (e.linkedTasks ++ [l]) } em nm now) :=
    getTask_put_self tbl d _ e.createdAt e.createdAt now
  have heq : linkTaskHandler tbl d em tid l nm now =
      ⟨200,
       getTask (putItem
         (putItem tbl (mkTaskItem d
           (applyUpdate d tid e
             { emptyTaskPatch with linkedTasks := some (e.linkedTasks ++ [l]) } em nm now)
           e.createdAt e.createdAt now))
         (mkTaskItem d
           { applyUpdate d tid e
               { emptyTaskPatch with linkedTasks := some (e.linkedTasks ++ [l]) } em nm now with
             activities := (applyUpdate d tid e
               { emptyTaskPatch with linkedTasks := some (e.linkedTasks ++ [l]) } em nm now).activities ++
               [mkNewActivity tid ⟨"assignment", "Linked to task: " ++ linkedTitle tbl d l, em, none⟩ nm now]
             updatedAt := now }
           (applyUpdate d tid e
             { emptyTaskPatch with linkedTasks := some (e.linkedTasks ++ [l]) } em nm now).createdAt
           (applyUpdate d tid e
             { emptyTaskPatch with linkedTasks := some (e.linkedTasks ++ [l]) } em nm now).createdAt
           now)) d tid,
       putItem
         (putItem tbl (mkTaskItem d
           (applyUpdate d tid e
             { emptyTaskPatch with linkedTasks := some (e.linkedTasks ++ [l]) } em nm now)
           e.createdAt e.createdAt now))
         (mkTaskItem d
           { applyUpdate d tid e
               { emptyTaskPatch with linkedTasks := some (e.linkedTasks ++ [l]) } em nm now with
             activities := (applyUpdate d tid e
               { emptyTaskPatch with linkedTasks := some (e.linkedTasks ++ [l]) } em nm now).activities ++
               [mkNewActivity tid ⟨"assignment", "Linked to task: " ++ linkedTitle tbl d l, em, none⟩ nm now]
             updatedAt := now }
           (applyUpdate d tid e
             { emptyTaskPatch with linkedTasks := some (e.linkedTasks ++ [l]) } em nm now).createdAt
           (applyUpdate d tid e
             { emptyTaskPatch with linkedTasks := some (e.linkedTasks ++ [l]) } em nm now).createdAt
           now)⟩ := by
    unfold linkTaskHandler
    rw [if_neg ht, if_neg hl]
    simp only [h, hnot, Bool.false_eq_true, if_false,
      updateTask_eq_of_found tbl d tid e _ em nm now h,
      addActivity_eq_of_found _ d tid _ _ nm now hg2]
  refine ⟨{ applyUpdate d tid e { emptyTaskPatch with linkedTasks := some (e.linkedTasks ++ [l]) } em nm now with
      activities := (applyUpdate d tid e
        { emptyTaskPatch with linkedTasks := some (e.linkedTasks ++ [l]) } em nm now).activities ++
        [mkNewActivity tid ⟨"assignment", "Linked to task: " ++ linkedTitle tbl d l, em, none⟩ nm now]
      updatedAt := now }, ?_, ?_, ?_, ?_, ?_, ?_⟩
  · rw [heq]
  · rw [heq]
    exact getTask_put_self _ d _ _ _ now
  · rw [heq]
    exact getTask_put_self _ d _ _ _ now
  · rfl
  · rfl
  · simp [applyUpdate, diffActivities, emptyTaskPatch]

theorem unlinkTaskHandler_ok (tbl : Table) (d em tid l : String) (e : Task)
    (nm : Nat) (now : String)
    (h : getTask tbl d tid = some e) (hid : e.id = tid)
    (ht : tid ≠ "") (hl : l ≠ "") :
    ∃ t2 : Task,
      (unlinkTaskHandler tbl d em tid l nm now).statusCode = 200 ∧
      (unlinkTaskHandler tbl d em tid l nm now).task = some t2 ∧
      getTask (unlinkTaskHandler tbl d em tid l nm now).table d tid = some t2 ∧
      t2.id = tid ∧
      t2.linkedTasks = e.linkedTasks.filter (fun i => i != l) ∧
      t2.activities = e.activities ++
        [mkNewActivity tid
          ⟨"assignment", "Unlinked from task: " ++ linkedTitle tbl d l, em, none⟩ nm now] := by
  have hg2 : getTask
      (putItem tbl (mkTaskItem d
        (applyUpdate d tid e
          { emptyTaskPatch with linkedTasks := some (e.linkedTasks.filter (fun i => i != l)) } em nm now)
        e.createdAt e.createdAt now)) d tid =
      some (applyUpdate d tid e
        { emptyTaskPatch with linkedTasks := some (e.linkedTasks.filter (fun i => i != l)) } em nm now) :=
    getTask_put_self tbl d _ e.createdAt e.createdAt now
  have heq : unlinkTaskHandler tbl d em tid l nm now =
      ⟨200,
       getTask (putItem
         (putItem tbl (mkTaskItem d
           (applyUpdate d tid e
             { emptyTaskPatch with linkedTasks := some (e.linkedTasks.filter (fun i => i != l)) } em nm now)
           e.createdAt e.createdAt now))
         (mkTaskItem d
           { applyUpdate d tid e
               { emptyTaskPatch with linkedTasks := some (e.linkedTasks.filter (fun i => i != l)) } em nm now with
             activities := (applyUpdate d tid e
               { emptyTaskPatch with linkedTasks := some (e.linkedTasks.filter (fun i => i != l)) } em nm now).activities ++
               [mkNewActivity tid ⟨"assignment", "Unlinked from task: " ++ linkedTitle tbl d l, em, none⟩ nm now]
             updatedAt := now }
           (applyUpdate d tid e
             { emptyTaskPatch with linkedTasks := some (e.linkedTasks.filter (fun i => i != l)) } em nm now).createdAt
           (applyUpdate d tid e
             { emptyTaskPatch with linkedTasks := some (e.linkedTasks.filter (fun i => i != l)) } em nm now).createdAt
           now)) d tid,
       putItem
         (putItem tbl (mkTaskItem d
           (applyUpdate d tid e
             { emptyTaskPatch with linkedTasks := some (e.linkedTasks.filter (fun i => i != l)) } em nm now)
           e.createdAt e.createdAt now))
         (mkTaskItem d
           { applyUpdate d tid e
               { emptyTaskPatch with linkedTasks := some (e.linkedTasks.filter (fun i => i != l)) } em nm now with
             activities := (applyUpdate d tid e
               { emptyTaskPatch with linkedTasks := some (e.linkedTasks.filter (fun i => i != l)) } em nm now).activities ++
               [mkNewActivity tid ⟨"assignment", "Unlinked from task: " ++ linkedTitle tbl d l, em, none⟩ nm now]
             updatedAt := now }
           (applyUpdate d tid e
             { emptyTaskPatch with linkedTasks := some (e.linkedTasks.filter (fun i => i != l)) } em nm now).createdAt
           (applyUpdate d tid e
             { emptyTaskPatch with linkedTasks := some (e.linkedTasks.filter (fun i => i != l)) } em nm now).createdAt
           now)⟩ := by
    unfold unlinkTaskHandler
    rw [if_neg (not_or.mpr ⟨ht, hl⟩)]
    simp only [h,
      updateTask_eq_of_found tbl d tid e _ em nm now h,
      addActivity_eq_of_found _ d tid _ _ nm now hg2]
  refine ⟨{ applyUpdate d tid e { emptyTaskPatch with linkedTasks := some (e.linkedTasks.filter (fun i => i != l)) } em nm now with
      activities := (applyUpdate d tid e
        { emptyTaskPatch with linkedTasks := some (e.linkedTasks.filter (fun i => i != l)) } em nm now).activities ++
        [mkNewActivity tid ⟨"assignment", "Unlinked from task: " ++ linkedTitle tbl d l, em, none⟩ nm now]
      updatedAt := now }, ?_, ?_, ?_, ?_, ?_, ?_⟩
  · rw [heq]
  · rw [heq]
    exact getTask_put_self _ d _ _ _ now
  · rw [heq]
    exact getTask_put_self _ d _ _ _ now
  · rfl
  · rfl
  · simp [applyUpdate, diffActivities, emptyTaskPatch]

/-- C10: unlinking an id that is not in `linkedTasks` is not rejected — the
unlink handler returns 200, leaves `linkedTasks` unchanged, and still
appends one `assignment`-type "Unlinked" activity; the link handler, by
contrast, rejects an already-linked id with a 400 error before writing
anything (the table is returned unchanged). -/
theorem unlink_lenient_link_strict
    (tblA : Table) (dA emA tidA lA : String) (eA : Task) (nmA : Nat) (nowA : String)
    (tblB : Table) (dB emB tidB lB : String) (eB : Task) (nmB : Nat) (nowB : String)
    (hA : getTask tblA dA tidA = some eA) (hidA : eA.id = tidA)
    (htA : tidA ≠ "") (hlA : lA ≠ "") (hnm : lA ∉ eA.linkedTasks)
    (hB : getTask tblB dB tidB = some eB) (htB : tidB ≠ "") (hlB : lB ≠ "")
    (hmem : lB ∈ eB.linkedTasks) :
    (∃ a : Activity,
      (unlinkTaskHandler tblA dA emA tidA lA nmA nowA).statusCode = 200 ∧
      (getTask (unlinkTaskHandler tblA dA emA tidA lA nmA nowA).table dA tidA).map
          Task.linkedTasks = some eA.linkedTasks ∧
      (getTask (unlinkTaskHandler tblA dA emA tidA lA nmA nowA).table dA tidA).map
          Task.activities = some (eA.activities ++ [a]) ∧
      a.type = "assignment" ∧ (∃ ttl, a.text = "Unlinked from task: " ++ ttl)) ∧
    linkTaskHandler tblB dB emB tidB lB nmB nowB = ⟨400, none, tblB⟩ := by
  constructor
  · obtain ⟨t2, hs, htask, hget, hid2, hlinked, hacts⟩ :=
      unlinkTaskHandler_ok tblA dA emA tidA lA eA nmA nowA hA hidA htA hlA
    have hfilter : eA.linkedTasks.filter (fun i => i != lA) = eA.linkedTasks :=
      List.filter_eq_self.mpr (fun a ha => by
        simp only [bne_iff_ne, ne_eq, decide_eq_true_eq]
        intro heq
        exact hnm (heq ▸ ha))
    refine ⟨mkNewActivity tidA
      ⟨"assignment", "Unlinked from task: " ++ linkedTitle tblA dA lA, emA, none⟩ nmA nowA,
      hs, ?_, ?_, rfl, ⟨linkedTitle tblA dA lA, rfl⟩⟩
    · rw [hget]
      simp [hlinked, hfilter]
    · rw [hget]
      simp [hacts]
  · have hc : eB.linkedTasks.contains lB = true := by simpa using hmem
    unfold linkTaskHandler
    rw [if_neg htB, if_neg hlB]
    simp [hB, hc]
    exact fun hcon => absurd hmem hcon

theorem unlink_lenient_link_strict_witness :
    getTask sampleTable "acme" "task-1-a" = some sampleTask ∧
    sampleTask.id = "task-1-a" ∧
    ("task-1-a" : String) ≠ "" ∧ ("task-7-q" : String) ≠ "" ∧
    "task-7-q" ∉ sampleTask.linkedTasks ∧
    getTask c10Table "acme" "task-2-b" = some c10Task ∧
    ("task-2-b" : String) ≠ "" ∧ ("task-9-z" : String) ≠ "" ∧
    "task-9-z" ∈ c10Task.linkedTasks ∧
    ((∃ a : Activity,
      (unlinkTaskHandler sampleTable "acme" "bob" "task-1-a" "task-7-q" 3 "2024-02-02").statusCode = 200 ∧
      (getTask (unlinkTaskHandler sampleTable "acme" "bob" "task-1-a" "task-7-q" 3 "2024-02-02").table
          "acme" "task-1-a").map Task.linkedTasks = some sampleTask.linkedTasks ∧
      (getTask (unlinkTaskHandler sampleTable "acme" "bob" "task-1-a" "task-7-q" 3 "2024-02-02").table
          "acme" "task-1-a").map Task.activities = some (sampleTask.activities ++ [a]) ∧
      a.type = "assignment" ∧ (∃ ttl, a.text = "Unlinked from task: " ++ ttl)) ∧
    linkTaskHandler c10Table "acme" "bob" "task-2-b" "task-9-z" 3 "2024-02-02" =
      ⟨400, none, c10Table⟩) :=
  ⟨by decide, rfl, by decide, by decide, by decide, by decide, by decide, by decide, by decide,
   unlink_lenient_link_strict
     sampleTable "acme" "bob" "task-1-a" "task-7-q" sampleTask 3 "2024-02-02"
     c10Table "acme" "bob" "task-2-b" "task-9-z" c10Task 3 "2024-02-02"
     (by decide) rfl (by decide) (by decide) (by decide)
     (by decide) (by decide) (by decide) (by decide)⟩

/-- C8: link then unlink — for two freshly created tasks T1 and T2 in the
same domain (with distinct generated ids), `link(T1, T2)` returns 200,
leaves `get(T1).linkedTasks = [T2.id]` and appends exactly one
`assignment`-type activity; the following `unlink(T1, T2)` returns 200,
restores `linkedTasks` to `[]` and appends a second `assignment`-type
activity whose text says "Unlinked"; across both calls T1's activity count
increases by exactly 2. -/
theorem link_then_unlink_scenario
    (tbl0 : Table) (d cb em : String) (td1 td2 : TaskPatch)
    (e1 : Nat) (r1 now1 : String) (e2 : Nat) (r2 now2 : String)
    (nmL : Nat) (nowL : String) (nmU : Nat) (nowU : String)
    (T1 T2 : Task) (tbl1 tbl2 : Table)
    (hc1 : createTask tbl0 d td1 cb e1 r1 now1 = (T1, tbl1))
    (hc2 : createTask tbl1 d td2 cb e2 r2 now2 = (T2, tbl2))
    (hid : taskIdOf e1 r1 ≠ taskIdOf e2 r2)
    (hfresh : td1.linkedTasks = none) :
    ∃ a1 a2 : Activity,
      a1.type = "assignment" ∧ a2.type = "assignment" ∧
      (∃ ttl, a2.text = "Unlinked from task: " ++ ttl) ∧
      (linkTaskHandler tbl2 d em T1.id T2.id nmL nowL).statusCode = 200 ∧
      (getTask (linkTaskHandler tbl2 d em T1.id T2.id nmL nowL).table d T1.id).map
          Task.linkedTasks = some [T2.id] ∧
      (getTask (linkTaskHandler tbl2 d em T1.id T2.id nmL nowL).table d T1.id).map
          Task.activities = some (T1.activities ++ [a1]) ∧
      (unlinkTaskHandler (linkTaskHandler tbl2 d em T1.id T2.id nmL nowL).table
          d em T1.id T2.id nmU nowU).statusCode = 200 ∧
      (getTask (unlinkTaskHandler (linkTaskHandler tbl2 d em T1.id T2.id nmL nowL).table
          d em T1.id T2.id nmU nowU).table d T1.id).map Task.linkedTasks = some [] ∧
      (getTask (unlinkTaskHandler (linkTaskHandler tbl2 d em T1.id T2.id nmL nowL).table
          d em T1.id T2.id nmU nowU).table d T1.id).map Task.activities =
        some (T1.activities ++ [a1, a2]) ∧
      (getTask (unlinkTaskHandler (linkTaskHandler tbl2 d em T1.id T2.id nmL nowL).table
          d em T1.id T2.id nmU nowU).table d T1.id).map (fun t => t.activities.length) =
        some (T1.activities.length + 2) := by
  have h1 : (createTask tbl0 d td1 cb e1 r1 now1).1 = T1 := by rw [hc1]
  have h1t : (createTask tbl0 d td1 cb e1 r1 now1).2 = tbl1 := by rw [hc1]
  have h2 : (createTask tbl1 d td2 cb e2 r2 now2).1 = T2 := by rw [hc2]
  have h2t : (createTask tbl1 d td2 cb e2 r2 now2).2 = tbl2 := by rw [hc2]
  subst h1
  subst h2
  subst h2t
  have hT1id : (createTask tbl0 d td1 cb e1 r1 now1).1.id = taskIdOf e1 r1 := rfl
  have hT2id : (createTask tbl1 d td2 cb e2 r2 now2).1.id = taskIdOf e2 r2 := rfl
  have hT1linked : (createTask tbl0 d td1 cb e1 r1 now1).1.linkedTasks = [] := by
    simp [createTask, mkFreshTask, hfresh]
  have hne : ((mkTaskItem d (mkFreshTask d td2 cb e2 r2 now2) now2 now2 now2)).PK ≠
      buildTaskPK d (taskIdOf e1 r1) := by
    intro hcon
    have hcon2 : buildTaskPK d (taskIdOf e2 r2) = buildTaskPK d (taskIdOf e1 r1) := hcon
    exact hid (buildTaskPK_id_inj d _ _ hcon2).symm
  have hget1 : getTask (createTask tbl1 d td2 cb e2 r2 now2).2 d (taskIdOf e1 r1) =
      some (createTask tbl0 d td1 cb e1 r1 now1).1 := by
    show getTask (putItem tbl1 (mkTaskItem d (mkFreshTask d td2 cb e2 r2 now2) now2 now2 now2))
        d (taskIdOf e1 r1) = _
    rw [getTask_put_ne tbl1 _ d (taskIdOf e1 r1) hne, ← h1t]
    exact getTask_put_self tbl0 d (mkFreshTask d td1 cb e1 r1 now1) now1 now1 now1
  obtain ⟨t2, hsL, htaskL, hgetL, hid2, hlinked2, hacts2⟩ :=
    linkTaskHandler_ok (createTask tbl1 d td2 cb e2 r2 now2).2 d em
      (taskIdOf e1 r1) (taskIdOf e2 r2) (createTask tbl0 d td1 cb e1 r1 now1).1
      nmL nowL hget1 rfl (taskIdOf_ne_empty e1 r1) (taskIdOf_ne_empty e2 r2)
      (by rw [hT1linked]; rfl)
  obtain ⟨t3, hsU, htaskU, hgetU, hid3, hlinked3, hacts3⟩ :=
    unlinkTaskHandler_ok
      (linkTaskHandler (createTask tbl1 d td2 cb e2 r2 now2).2 d em
        (taskIdOf e1 r1) (taskIdOf e2 r2) nmL nowL).table d em
      (taskIdOf e1 r1) (taskIdOf e2 r2) t2 nmU nowU hgetL hid2
      (taskIdOf_ne_empty e1 r1) (taskIdOf_ne_empty e2 r2)
  have ht2linked : t2.linkedTasks = [taskIdOf e2 r2] := by
    rw [hlinked2, hT1linked]
    rfl
  have ht3linked : t3.linkedTasks = [] := by
    rw [hlinked3, ht2linked]
    simp
  rw [hT1id, hT2id]
  refine ⟨mkNewActivity (taskIdOf e1 r1)
      ⟨"assignment",
       "Linked to task: " ++
         linkedTitle (createTask tbl1 d td2 cb e2 r2 now2).2 d (taskIdOf e2 r2),
       em, none⟩ nmL nowL,
    mkNewActivity (taskIdOf e1 r1)
      ⟨"assignment",
       "Unlinked from task: " ++
         linkedTitle (linkTaskHandler (createTask tbl1 d td2 cb e2 r2 now2).2 d em
           (taskIdOf e1 r1) (taskIdOf e2 r2) nmL nowL).table d (taskIdOf e2 r2),
       em, none⟩ nmU nowU,
    rfl, rfl, ⟨_, rfl⟩, hsL, ?_, ?_, hsU, ?_, ?_, ?_⟩
  · rw [hgetL]
    simp [ht2linked, hT2id]
  · rw [hgetL]
    simp [hacts2]
  · rw [hgetU]
    simp [ht3linked]
  · rw [hgetU]
    simp [hacts3, hacts2]
  · rw [hgetU]
    simp [hacts3, hacts2]

theorem link_then_unlink_scenario_witness :
    createTask ([] : Table) "acme" emptyTaskPatch "bob" 1 "aa" "2024-01-01" = (c8T1, c8Tbl1) ∧
    createTask c8Tbl1 "acme" emptyTaskPatch "bob" 2 "bb" "2024-01-02" = (c8T2, c8Tbl2) ∧
    taskIdOf 1 "aa" ≠ taskIdOf 2 "bb" ∧
    emptyTaskPatch.linkedTasks = none ∧
    (∃ a1 a2 : Activity,
      a1.type = "assignment" ∧ a2.type = "assignment" ∧
      (∃ ttl, a2.text = "Unlinked from task: " ++ ttl) ∧
      (linkTaskHandler c8Tbl2 "acme" "alice" c8T1.id c8T2.id 3 "2024-01-03").statusCode = 200 ∧
      (getTask (linkTaskHandler c8Tbl2 "acme" "alice" c8T1.id c8T2.id 3 "2024-01-03").table
          "acme" c8T1.id).map Task.linkedTasks = some [c8T2.id] ∧
      (getTask (linkTaskHandler c8Tbl2 "acme" "alice" c8T1.id c8T2.id 3 "2024-01-03").table
          "acme" c8T1.id).map Task.activities = some (c8T1.activities ++ [a1]) ∧
      (unlinkTaskHandler (linkTaskHandler c8Tbl2 "acme" "alice" c8T1.id c8T2.id 3 "2024-01-03").table
          "acme" "alice" c8T1.id c8T2.id 4 "2024-01-04").statusCode = 200 ∧
      (getTask (unlinkTaskHandler (linkTaskHandler c8Tbl2 "acme" "alice" c8T1.id c8T2.id 3 "2024-01-03").table
          "acme" "alice" c8T1.id c8T2.id 4 "2024-01-04").table "acme" c8T1.id).map
          Task.linkedTasks = some [] ∧
      (getTask (unlinkTaskHandler (linkTaskHandler c8Tbl2 "acme" "alice" c8T1.id c8T2.id 3 "2024-01-03").table
          "acme" "alice" c8T1.id c8T2.id 4 "2024-01-04").table "acme" c8T1.id).map
          Task.activities = some (c8T1.activities ++ [a1, a2]) ∧
      (getTask (unlinkTaskHandler (linkTaskHandler c8Tbl2 "acme" "alice" c8T1.id c8T2.id 3 "2024-01-03").table
          "acme" "alice" c8T1.id c8T2.id 4 "2024-01-04").table "acme" c8T1.id).map
          (fun t => t.activities.length) = some (c8T1.activities.length + 2)) :=
  ⟨rfl, rfl, by decide, rfl,
   link_then_unlink_scenario ([] : Table) "acme" "bob" "alice" emptyTaskPatch emptyTaskPatch
     1 "aa" "2024-01-01" 2 "bb" "2024-01-02" 3 "2024-01-03" 4 "2024-01-04"
     c8T1 c8T2 c8Tbl1 c8Tbl2 rfl rfl (by decide) rfl⟩

end Paroview
